import Mathlib

/-!
Verification of the compliance-gated ingestion and provenance-integrity
subsystem of the thesis-kedge repository: the robots.txt compliance engine
(`src/common/robots.py`), the adaptive rate limiter
(`src/utils/adaptive_rps.py`), and the integrity checker
(`src/validation/integrity_check.py`).

Python floats are embedded as rationals (ℚ); every numeric value the claims
touch is a dyadic rational or a short decimal, where float and rational
arithmetic agree.  Network and file I/O are factored out: `fetch_robots`
takes the outcome of the HTTP GET as an `Except` value, and the integrity
checker takes the silver-layer tables as explicit lists (with `Option`
for a missing/unreadable parquet file).

The file is organized as all definitions first, then all theorems.
-/

set_option maxRecDepth 4000

namespace ThesisKedge

/-! ## AdaptiveRPS (src/utils/adaptive_rps.py)

State of the adaptive rate limiter.  `last_request` (a wall-clock
timestamp used only by `wait`, which merely sleeps) is omitted; the claims
concern only `feedback`, which reads and writes the fields below.
-/

structure AdaptiveRPS where
  rps : ℚ
  min_rps : ℚ
  max_rps : ℚ
  /-- `deque(maxlen=20)` of booleans, oldest first. -/
  error_history : List Bool
deriving DecidableEq, Repr

/-- The `maxlen` of the `error_history` deque. -/
def errorWindowMax : Nat := 20

/-- `status_code in (403, 429, 503)`. -/
def isErrorStatus (status_code : Int) : Bool :=
  status_code == 403 || status_code == 429 || status_code == 503

/-- `deque(maxlen=20).append`: push on the right, evict from the left when
the capacity is exceeded. -/
def pushHistory (h : List Bool) (e : Bool) : List Bool :=
  let h2 := h ++ [e]
  if errorWindowMax < h2.length then h2.drop (h2.length - errorWindowMax) else h2

/-- `sum(self.error_history)` (`True` counts as 1). -/
def errorCount (h : List Bool) : Nat := h.countP (fun b => b)

/-- Python `max(a, b)` on two numbers (first argument wins ties). -/
def pymax (a b : ℚ) : ℚ := if b ≤ a then a else b

/-- Python `min(a, b)` on two numbers (first argument wins ties). -/
def pymin (a b : ℚ) : ℚ := if a ≤ b then a else b

/-- `AdaptiveRPS.feedback(status_code)`. -/
def feedback (s : AdaptiveRPS) (status_code : Int) : AdaptiveRPS :=
  let h := pushHistory s.error_history (isErrorStatus status_code)
  if 3 ≤ errorCount h then
    { s with error_history := h, rps := pymax s.min_rps (s.rps / 2) }
  else if errorCount h = 0 ∧ h.length = errorWindowMax then
    { s with error_history := h, rps := pymin s.max_rps (s.rps * (6 / 5)) }
  else
    { s with error_history := h }

/-- A sequence of `feedback` calls. -/
def feedbackRun (s : AdaptiveRPS) (codes : List Int) : AdaptiveRPS :=
  codes.foldl feedback s

/-- The instance of the spec's concrete scenario:
`AdaptiveRPS(rps=0.5, min_rps=0.1, max_rps=1.0)`. -/
def rpsDemoInit : AdaptiveRPS :=
  { rps := 1/2, min_rps := 1/10, max_rps := 1, error_history := [] }

/-- An instance with negative bounds: `rps = -3/2` lies within
`[min_rps, max_rps] = [-10, -1]`, but halving moves a negative `rps` toward
zero and above `max_rps`. -/
def rpsNegDemo : AdaptiveRPS :=
  { rps := -3/2, min_rps := -10, max_rps := -1, error_history := [] }

/-! ## RobotsParser (src/common/robots.py)

The parsed ruleset dictionary.  `fetched_at` (a wall-clock timestamp that no
decision reads) is omitted; `error` is the extra key the permissive fallback
carries. -/

structure RobotsRules where
  allow : List String
  disallow : List String
  crawl_delay : Option ℚ
  user_agent : String
  error : Option String
deriving DecidableEq, Repr

/-- Backtracking helper for a starred atom: `tryStar c k s` succeeds iff the
continuation `k` succeeds on some suffix of `s` reachable by consuming
characters matched by the atom `c` (`'.'` matches anything, other characters
match themselves).  This is the backtracking semantics of Python
`re` for the regex fragment `c*rest`. -/
def tryStar (c : Char) (k : List Char → Bool) : List Char → Bool
  | [] => k []
  | x :: xs => k (x :: xs) || ((c == '.' || c == x) && tryStar c k xs)

/-- Matcher for the regex dialect produced by `rule_path.replace('*', '.*')`:
literal characters, `'.'` (any character), and `'.*'` sequences.  As with
`re.match`, the match is anchored at the start of the string and succeeds as
soon as the pattern is exhausted (a prefix match). -/
def reMatch : List Char → List Char → Bool
  | [], _ => true
  | c :: '*' :: ps, s => tryStar c (fun rest => reMatch ps rest) s
  | _ :: _, [] => false
  | c :: ps, x :: xs => (c == '.' || c == x) && reMatch ps xs

/-- `rule_path.replace('*', '.*')` on a character list. -/
def replaceStar : List Char → List Char
  | [] => []
  | c :: cs =>
    if c == '*' then '.' :: '*' :: replaceStar cs else c :: replaceStar cs

/-- `RobotsParser._path_matches(path, rule_path)`: empty rules match nothing;
rules containing `*` are matched as a prefix-anchored regex after replacing
`*` with `.*`; otherwise exact equality or prefix match. -/
def path_matches (path rule_path : String) : Bool :=
  let p := path.toList
  let r := rule_path.toList
  if r.isEmpty then false
  else if r.contains '*' then reMatch (replaceStar r) p
  else p == r || r.isPrefixOf p

/-- `RobotsParser.is_allowed(url, robots_rules)`, expressed over the URL's
path (the Python code first extracts `urlparse(url).path`; every rule match
looks only at that path).  `none` models passing `robots_rules=None`. -/
def is_allowed (path : String) (robots_rules : Option RobotsRules) : Bool :=
  match robots_rules with
  | none => true
  | some r =>
    if r.disallow.any (fun d => path_matches path d) then false
    else if !r.allow.isEmpty then r.allow.any (fun a => path_matches path a)
    else true

/-- The user-agent scopes whose directives are collected:
`current_user_agent in ['*', 'bot']`. -/
def isAgentScope (ua : String) : Bool := ua == "*" || ua == "bot"

/-- Value of a list of decimal digits. -/
def decimalVal (l : List Char) : ℕ := l.foldl (fun n c => 10 * n + (c.toNat - 48)) 0

/-- Python `float(value)` on the plain decimal forms robots.txt crawl-delays
take (optional sign, digits, optional fractional part); returns `none` on the
`ValueError` cases for such strings. -/
def pyFloat (s : String) : Option ℚ :=
  let cs := s.toList
  let (neg, cs2) :=
    match cs with
    | '-' :: t => (true, t)
    | '+' :: t => (false, t)
    | t => (false, t)
  let intPart := cs2.takeWhile Char.isDigit
  let rest := cs2.dropWhile Char.isDigit
  let mk : List Char → ℚ := fun frac =>
    (if neg then -1 else 1) *
      ((decimalVal intPart : ℚ) + (decimalVal frac : ℚ) / (10 : ℚ) ^ frac.length)
  match rest with
  | [] => if intPart.isEmpty then none else some (mk [])
  | '.' :: frac =>
    if frac.all Char.isDigit && !(intPart.isEmpty && frac.isEmpty) then
      some (mk frac)
    else none
  | _ => none

/-- The whitespace characters Python `str.strip()` removes. -/
def isPySpace (c : Char) : Bool :=
  c == ' ' || c == '\t' || c == '\n' || c == '\r' || c == '\x0b' || c == '\x0c'

/-- Python `str.strip()` on a character list. -/
def pyStrip (l : List Char) : List Char :=
  ((l.dropWhile isPySpace).reverse.dropWhile isPySpace).reverse

/-- Python `str.lower()` restricted to ASCII; the recognized directives are
all ASCII. -/
def asciiLower (c : Char) : Char :=
  if 'A' ≤ c && c ≤ 'Z' then Char.ofNat (c.toNat + 32) else c

/-- Python `content.split('\n')`: split on every separator, keeping empty
pieces. -/
def splitChar (sep : Char) : List Char → List (List Char)
  | [] => [[]]
  | c :: cs =>
    let r := splitChar sep cs
    if c == sep then [] :: r
    else (c :: r.headD []) :: r.tail

/-- Python `line.split(':', 1)` for a line known to contain a colon: the text
before the first colon and everything after it. -/
def splitFirstColon : List Char → List Char × List Char
  | [] => ([], [])
  | c :: cs =>
    if c == ':' then ([], cs)
    else
      let r := splitFirstColon cs
      (c :: r.1, r.2)

/-- The fresh ruleset `_parse_robots_content` starts from. -/
def emptyRules : RobotsRules :=
  { allow := [], disallow := [], crawl_delay := none, user_agent := "*",
    error := none }

/-- One iteration of the parse loop of `_parse_robots_content`; the state is
the ruleset built so far together with `current_user_agent`. -/
def processRobotsLine (st : RobotsRules × String) (raw : List Char) :
    RobotsRules × String :=
  let line := pyStrip raw
  if line.isEmpty || line.headD ' ' == '#' then st
  else if !(line.contains ':') then st
  else
    let dv := splitFirstColon line
    let directive := ((pyStrip dv.1).map asciiLower).asString
    let value := (pyStrip dv.2).asString
    if directive == "user-agent" then (st.1, value)
    else if directive == "allow" && isAgentScope st.2 then
      ({ st.1 with allow := st.1.allow ++ [value] }, st.2)
    else if directive == "disallow" && isAgentScope st.2 then
      ({ st.1 with disallow := st.1.disallow ++ [value] }, st.2)
    else if directive == "crawl-delay" && isAgentScope st.2 then
      match pyFloat value with
      | some f => ({ st.1 with crawl_delay := some f }, st.2)
      | none => st
    else st

/-- `RobotsParser._parse_robots_content(content, domain)` (the `domain`
argument is only used for logging). -/
def parse_robots_content (content : String) : RobotsRules :=
  ((splitChar '\n' content.toList).foldl processRobotsLine (emptyRules, "*")).1

/-- `RobotsParser.fetch_robots(domain)`, with the network interaction
abstracted into its outcome: `Except.ok content` is a 2xx response body, and
`Except.error e` is any raised exception's message (network error, non-2xx
`raise_for_status`, or any failure inside the `try` block).  The cache and
the audit-file write are I/O that never alters the returned ruleset. -/
def fetch_robots (response : Except String String) : RobotsRules :=
  match response with
  | Except.ok content => parse_robots_content content
  | Except.error e =>
    { allow := ["/"], disallow := [], crawl_delay := none, user_agent := "*",
      error := some e }

/-! ## IntegrityChecker (src/validation/integrity_check.py)

The silver layer is embedded as explicit tables.  A table that is `none`
models a parquet file that is missing or unreadable: every SQL query against
it raises, which each check catches and converts into its own error-violation
message (the embedded messages stand in for the duckdb exception text).
DuckDB leaves `GROUP BY` output order and `ORDER BY` tie order unspecified;
the embedding fixes them deterministically (`dedup` order, insertion sort).
-/

structure Product where
  product_id : String
  brand : String
  name : String
  price_value : Option ℚ
  source_url : Option String
  scrape_ts : Option String
  refillable_flag : Bool
  refill_evidence : Option (List String)
  is_fixture : Bool
deriving DecidableEq, Repr

structure Review where
  rating : Option ℚ
  text : String
  source_url : Option String
  scrape_ts : Option String
  is_fixture : Bool
deriving DecidableEq, Repr

structure ManifestRun where
  site : String
  robots_etag : Option String
  robots_path : Option String
  total_requests : Int
  blocked_requests : Int
deriving DecidableEq, Repr

/-- The silver layer as the integrity checker sees it.  The two
`...HaveFixtureCol` flags record whether the optional `is_fixture` column
exists (its absence makes the fixture query raise, which the code treats as
"no contamination check possible", appending nothing). -/
structure SilverLayer where
  products : Option (List Product)
  reviews : Option (List Review)
  manifests : Option (List ManifestRun)
  productsHaveFixtureCol : Bool
  reviewsHaveFixtureCol : Bool
deriving DecidableEq, Repr

/-- `check_file_existence`, per required file: a missing file, then the
(statically false for the two literal paths) non-parquet-extension case. -/
def fileExistenceViolations (present : Bool) (path : String) : List String :=
  if !present then ["Missing required file: " ++ path]
  else if !(path.endsWith ".parquet") then ["File not in Parquet format: " ++ path]
  else []

/-- `IntegrityChecker.check_file_existence`. -/
def check_file_existence (s : SilverLayer) : List String :=
  fileExistenceViolations s.products.isSome "data/silver/products.parquet" ++
    fileExistenceViolations s.reviews.isSome "data/silver/reviews.parquet"

/-- A product row lacking a core provenance field:
`source_url IS NULL OR scrape_ts IS NULL`. -/
def productMissingCore (p : Product) : Bool :=
  p.source_url.isNone || p.scrape_ts.isNone

/-- A review row lacking a core provenance field. -/
def reviewMissingCore (r : Review) : Bool :=
  r.source_url.isNone || r.scrape_ts.isNone

/-- `IntegrityChecker.check_provenance_gates`. -/
def check_provenance_gates (s : SilverLayer) : List String :=
  (match s.products with
   | none => ["Error checking products provenance: read_parquet failed"]
   | some ps =>
     let m := (ps.filter productMissingCore).length
     if 0 < m then ["Products missing core provenance: " ++ toString m ++ " rows"]
     else []) ++
  (match s.reviews with
   | none => ["Error checking reviews provenance: read_parquet failed"]
   | some rs =>
     let m := (rs.filter reviewMissingCore).length
     if 0 < m then ["Reviews missing core provenance: " ++ toString m ++ " rows"]
     else [])

/-- `refill_evidence IS NULL OR array_length(refill_evidence) = 0`. -/
def evidenceEmpty : Option (List String) → Bool
  | none => true
  | some l => l.isEmpty

/-- `IntegrityChecker.check_refillable_evidence`. -/
def check_refillable_evidence (s : SilverLayer) : List String :=
  match s.products with
  | none => ["Error checking refillable evidence: read_parquet failed"]
  | some ps =>
    let n := (ps.filter (fun p => p.refillable_flag && evidenceEmpty p.refill_evidence)).length
    if 0 < n then ["Refillable products without evidence: " ++ toString n ++ " rows"]
    else []

/-- `IntegrityChecker.check_robots_provenance`: per site with rows missing
`robots_etag` or `robots_path`, one violation carrying the row count. -/
def check_robots_provenance (s : SilverLayer) : List String :=
  match s.manifests with
  | none => ["Missing manifest_runs.parquet"]
  | some ms =>
    let bad := ms.filter (fun m => m.robots_etag.isNone || m.robots_path.isNone)
    ((bad.map (fun m => m.site)).dedup).map (fun site =>
      "Site " ++ site ++ " missing robots provenance: " ++
        toString ((bad.filter (fun m => m.site == site)).length) ++ " records")

/-- The regex `^Brand_[0-9]+$`. -/
def brandPatternMatch (b : String) : Bool :=
  let cs := b.toList
  "Brand_".toList.isPrefixOf cs &&
    (let rest := cs.drop 6
     !rest.isEmpty && rest.all Char.isDigit)

/-- The fixed reference list of luxury brands in
`check_synthetic_indicators`. -/
def luxuryBrands : List String :=
  ["Chanel", "Parfums Christian Dior", "Guerlain", "Hermès", "Givenchy",
   "Maison Francis Kurkdjian", "Acqua di Parma", "Tom Ford Beauty",
   "La Mer", "Jo Malone London", "Le Labo", "By Kilian", "Yves Saint Laurent",
   "Lancôme", "Armani Beauty", "Valentino Beauty", "Burberry Beauty", "Chloé"]

/-- `ROUND(x, 2)` on a rational. -/
def round2 (q : ℚ) : ℚ := ((round (q * 100) : ℤ) : ℚ) / 100

/-- `ROUND(x, 3)` on a rational. -/
def round3 (q : ℚ) : ℚ := ((round (q * 1000) : ℤ) : ℚ) / 1000

/-- Sub-check 1: the `Brand_<number>` generator pattern. -/
def syntheticBrandViolations (products? : Option (List Product)) : List String :=
  match products? with
  | none => ["Brand pattern check failed: read_parquet failed"]
  | some ps =>
    let n := (ps.filter (fun p => brandPatternMatch p.brand)).length
    if 0 < n then
      ["Found " ++ toString n ++ " synthetic brand names (Brand_0 pattern)"]
    else []

/-- Sub-check 2: absence of every known luxury brand. -/
def luxuryBrandViolations (products? : Option (List Product)) : List String :=
  match products? with
  | none => ["Luxury brand check failed: read_parquet failed"]
  | some ps =>
    let n := (ps.filter (fun p => luxuryBrands.contains p.brand)).length
    if n = 0 then ["No luxury brands found - data appears synthetic"]
    else []

/-- Sub-check 3: consecutive gaps of the distinct sorted non-null prices,
rounded to 2 decimals; at most one distinct gap is flagged. -/
def priceGapViolations (products? : Option (List Product)) : List String :=
  match products? with
  | none => ["Price gap check failed: read_parquet failed"]
  | some ps =>
    let sorted := List.insertionSort (· ≤ ·) (ps.filterMap (fun p => p.price_value)).dedup
    let gaps := List.zipWith (fun a b => b - a) sorted sorted.tail
    let distinct_gaps := (gaps.map round2).dedup.length
    if distinct_gaps ≤ 1 then
      ["Price gaps too uniform: only " ++ toString distinct_gaps ++ " distinct gaps"]
    else []

/-- Sub-check 4: share of reviews sitting in duplicated `(rating, text)`
groups.  When no group is duplicated, `SUM(dup_count)` is SQL `NULL`, so the
Python percentage expression divides `None` by an `int` and the resulting
`TypeError` is converted into the check-failed violation whenever the reviews
table is non-empty. -/
def reviewDupViolations (reviews? : Option (List Review)) : List String :=
  match reviews? with
  | none => ["Review duplication check failed: read_parquet failed"]
  | some rs =>
    let total := rs.length
    let keys := (rs.map (fun r => (r.rating, r.text))).dedup
    let dupCounts :=
      (keys.map (fun k => (rs.filter (fun r => (r.rating, r.text) == k)).length)).filter
        (fun n => 1 < n)
    if dupCounts.isEmpty then
      if 0 < total then
        ["Review duplication check failed: unsupported operand type(s) for /: NoneType and int"]
      else []
    else
      let pct : ℚ := if 0 < total then ((dupCounts.sum : ℚ) / (total : ℚ)) * 100 else 0
      if 10 < pct then
        ["High review duplication: " ++ toString pct ++ "% (" ++
          toString dupCounts.length ++ " duplicate pairs)"]
      else []

/-- Sub-check 5: the string flavor of the refillable-evidence query.  The
silver `refill_evidence` column is LIST-typed (the ingest step writes Python
lists), so duckdb resolves the query's `refill_evidence = ''` comparison by
casting the string constant to the list type, and that cast of the empty
string raises a Conversion Error during constant folding, before any row is
inspected.  The sub-check therefore always lands in its `except` and appends
the check-failed violation: with the duckdb cast-error text whenever the
products parquet is readable, and with the read error when it is not.  The
count the Python source appears to compute is unreachable. -/
def refillStringViolations (products? : Option (List Product)) : List String :=
  match products? with
  | none => ["Refillable evidence check failed: read_parquet failed"]
  | some _ =>
    ["Refillable evidence check failed: Conversion Error: cast of empty string to refill_evidence list"]

/-- Sub-check 6: manifest plausibility; needs the manifest table and both
row counts, so any of the three tables being unreadable fails the check as
a whole (`review_count` is fetched but never used by the loop). -/
def manifestViolations (s : SilverLayer) : List String :=
  match s.manifests, s.products, s.reviews with
  | some ms, some ps, some _ =>
    let product_count := ps.length
    (ms.filter (fun m => m.total_requests < (product_count : Int) * 2)).map (fun m =>
      "Manifest implausible: " ++ toString m.total_requests ++ " requests for " ++
        toString product_count ++ " products")
  | _, _, _ => ["Manifest check failed: read_parquet failed"]

/-- `CASE WHEN rating BETWEEN 1 AND 5 THEN 1.0 ELSE 0.0 END` (a NULL rating
falls to the ELSE branch). -/
def ratingInBounds : Option ℚ → Bool
  | some x => decide (1 ≤ x) && decide (x ≤ 5)
  | none => false

/-- `AVG(CASE WHEN rating BETWEEN 1 AND 5 THEN 1.0 ELSE 0.0 END)` over a
non-empty reviews table: the fraction of rows whose rating is in bounds. -/
def ratingFraction (rs : List Review) : ℚ :=
  ((rs.filter (fun r => ratingInBounds r.rating)).length : ℚ) / (rs.length : ℚ)

/-- Sub-check 7: `ROUND(AVG(in_bounds), 3)` compared against `1.0`.  On an
empty table the average is SQL `NULL`, which pandas reads as NaN, and
`NaN == 1.0` is false, so the violation fires. -/
def ratingBoundsViolations (reviews? : Option (List Review)) : List String :=
  match reviews? with
  | none => ["Error checking rating bounds: read_parquet failed"]
  | some rs =>
    if rs.isEmpty then ["Invalid ratings found: nan in bounds"]
    else if round3 (ratingFraction rs) = 1 then []
    else ["Invalid ratings found: " ++ toString (round3 (ratingFraction rs)) ++ " in bounds"]

/-- `IntegrityChecker.check_synthetic_indicators`: the seven sub-checks in
source order, each exception-isolated. -/
def check_synthetic_indicators (s : SilverLayer) : List String :=
  syntheticBrandViolations s.products ++ luxuryBrandViolations s.products ++
    priceGapViolations s.products ++ reviewDupViolations s.reviews ++
    refillStringViolations s.products ++ manifestViolations s ++
    ratingBoundsViolations s.reviews

/-- One row of the per-brand price statistics query (`avg_price` is computed
by the SQL but never read by the Python loop, so it is not modelled). -/
structure BrandStat where
  brand : String
  n : Nat
  pmin : Option ℚ
  pmax : Option ℚ
  price_levels : Nat
deriving DecidableEq, Repr

/-- The rows of one brand's group. -/
def brandGroup (ps : List Product) (b : String) : List Product :=
  ps.filter (fun p => p.brand == b)

/-- `COUNT(*), MIN(price_value), MAX(price_value),
COUNT(DISTINCT price_value)` for one brand (aggregates ignore NULLs). -/
def brandStat (ps : List Product) (b : String) : BrandStat :=
  let g := brandGroup ps b
  let prices := g.filterMap (fun p => p.price_value)
  { brand := b, n := g.length, pmin := prices.min?, pmax := prices.max?,
    price_levels := prices.dedup.length }

/-- `GROUP BY brand ... HAVING n >= 10`. -/
def priceStats (ps : List Product) : List BrandStat :=
  (((ps.map (fun p => p.brand)).dedup).map (brandStat ps)).filter
    (fun st => 10 ≤ st.n)

/-- `ORDER BY price_levels ASC, n DESC`. -/
def statLE (a b : BrandStat) : Prop :=
  a.price_levels < b.price_levels ∨
    (a.price_levels = b.price_levels ∧ b.n ≤ a.n)

instance : DecidableRel statLE := fun a b => by
  unfold statLE
  infer_instance

/-- `pmin == pmax` as pandas evaluates it: comparing two NaNs (both
aggregates NULL) is false. -/
def minMaxEqual (st : BrandStat) : Bool :=
  match st.pmin, st.pmax with
  | some a, some b => a == b
  | _, _ => false

/-- The few-distinct-price-levels violation message. -/
def fewLevelsMsg (st : BrandStat) : String :=
  "Brand " ++ st.brand ++ " has suspiciously few price levels: " ++
    toString st.price_levels ++ " for " ++ toString st.n ++ " products"

/-- The identical-min/max-prices violation message. -/
def minMaxMsg (st : BrandStat) : String :=
  "Brand " ++ st.brand ++ " has identical min/max prices: " ++
    (match st.pmin with
     | some q => toString q
     | none => "nan")

/-- The two flag conditions of the Python loop body, in source order:
`price_levels <= 2 and n >= 20`, then `pmin == pmax and n >= 10`. -/
def brandRowViolations (st : BrandStat) : List String :=
  (if st.price_levels ≤ 2 ∧ 20 ≤ st.n then [fewLevelsMsg st] else []) ++
    (if minMaxEqual st = true ∧ 10 ≤ st.n then [minMaxMsg st] else [])

/-- `IntegrityChecker.check_price_sanity`. -/
def check_price_sanity (products? : Option (List Product)) : List String :=
  match products? with
  | none => ["Error checking price sanity: read_parquet failed"]
  | some ps =>
    ((List.insertionSort statLE (priceStats ps)).map brandRowViolations).flatten

/-- `IntegrityChecker.check_fixture_contamination`: each table's query is
exception-isolated, and an exception (absent `is_fixture` column, or an
unreadable table) is logged without appending a violation. -/
def check_fixture_contamination (s : SilverLayer) : List String :=
  (match s.products, s.productsHaveFixtureCol with
   | some ps, true =>
     let n := (ps.filter (fun p => p.is_fixture)).length
     if 0 < n then ["Fixture contamination in products: " ++ toString n ++ " rows"]
     else []
   | _, _ => []) ++
  (match s.reviews, s.reviewsHaveFixtureCol with
   | some rs, true =>
     let n := (rs.filter (fun r => r.is_fixture)).length
     if 0 < n then ["Fixture contamination in reviews: " ++ toString n ++ " rows"]
     else []
   | _, _ => [])

/-- `IntegrityChecker.generate_audit_sample`: up to 20 random rows with a
source URL.  The random choice affects only which rows are serialized, not
the sample size or the violations, so the result is modelled as the sample
size (`none` when the query raised) together with the violations appended. -/
def generate_audit_sample (s : SilverLayer) : Option Nat × List String :=
  match s.products with
  | none => (none, ["Error generating audit sample: read_parquet failed"])
  | some ps =>
    (some (min 20 (ps.filter (fun p => p.source_url.isSome)).length), [])

structure IntegrityReport where
  timestamp : String
  total_violations : Nat
  violations : List String
  audit_sample_size : Nat
  status : String
deriving DecidableEq, Repr

/-- The concatenation of every check's violations, in the order
`run_integrity_check` invokes the checks. -/
def allViolations (s : SilverLayer) : List String :=
  check_file_existence s ++ check_provenance_gates s ++
    check_refillable_evidence s ++ check_robots_provenance s ++
    check_synthetic_indicators s ++ check_price_sanity s.products ++
    check_fixture_contamination s ++ (generate_audit_sample s).2

/-- `IntegrityChecker.run_integrity_check` from a freshly constructed
checker (`self.violations = []`), with `now` the wall-clock timestamp the
report records. -/
def run_integrity_check (now : String) (s : SilverLayer) : IntegrityReport :=
  let violations := allViolations s
  { timestamp := now
    total_violations := violations.length
    violations := violations
    audit_sample_size :=
      match (generate_audit_sample s).1 with
      | some n => n
      | none => 0
    status := if violations.length = 0 then "PASS" else "FAIL" }

/-- An in-bounds review. -/
def goodReview : Review :=
  { rating := some 5, text := "fine", source_url := some "u",
    scrape_ts := some "t", is_fixture := false }

/-- A review with an out-of-range rating. -/
def badReview : Review :=
  { rating := some 6, text := "meh", source_url := some "u",
    scrape_ts := some "t", is_fixture := false }

/-- 9999 in-bounds reviews and one with rating 6: in-bounds fraction
0.9999, which `ROUND(..., 3)` collapses to 1.000. -/
def skewedReviews : List Review := List.replicate 9999 goodReview ++ [badReview]

/-- A product with a brand and a price and full provenance. -/
def mkPricedProduct (b : String) (q : ℚ) : Product :=
  { product_id := "p", brand := b, name := "n", price_value := some q,
    source_url := some "u", scrape_ts := some "t", refillable_flag := false,
    refill_evidence := none, is_fixture := false }

/-- A brand with exactly 10 products on exactly 2 price levels (and distinct
min/max). -/
def twoLevelProducts : List Product :=
  List.replicate 5 (mkPricedProduct "A" 5) ++ List.replicate 5 (mkPricedProduct "A" 10)

/-- A brand with 20 products all at one price: both price-sanity flags
fire. -/
def uniformPriceProducts : List Product :=
  List.replicate 20 (mkPricedProduct "B" 7)

/-! ## Theorems: AdaptiveRPS -/

example : (feedbackRun rpsDemoInit [429, 429, 429]).rps = 1/4 := by
  norm_num [feedbackRun, feedback, pushHistory, errorCount, isErrorStatus, pymax,
    pymin, rpsDemoInit, errorWindowMax, List.countP_cons, List.countP_nil]

/-- `feedback` never touches `min_rps`. -/
theorem feedback_min_rps (s : AdaptiveRPS) (c : Int) :
    (feedback s c).min_rps = s.min_rps := by
  simp only [feedback]
  split_ifs <;> rfl

/-- `feedback` never touches `max_rps`. -/
theorem feedback_max_rps (s : AdaptiveRPS) (c : Int) :
    (feedback s c).max_rps = s.max_rps := by
  simp only [feedback]
  split_ifs <;> rfl

/-- One `feedback` step keeps `rps` inside `[min_rps, max_rps]`, provided the
bounds are nonnegative (so that halving cannot overshoot upward and the
1.2x factor cannot undershoot downward). -/
theorem feedback_bounds (s : AdaptiveRPS) (c : Int) (h0 : 0 ≤ s.min_rps)
    (h1 : s.min_rps ≤ s.rps) (h2 : s.rps ≤ s.max_rps) :
    s.min_rps ≤ (feedback s c).rps ∧ (feedback s c).rps ≤ s.max_rps := by
  have hmm : s.min_rps ≤ s.max_rps := h1.trans h2
  have hr0 : (0 : ℚ) ≤ s.rps := h0.trans h1
  have hhalf : s.rps / 2 ≤ s.max_rps := (half_le_self hr0).trans h2
  have hmul : s.min_rps ≤ s.rps * (6 / 5) :=
    h1.trans (le_mul_of_one_le_right hr0 (by norm_num))
  simp only [feedback]
  split_ifs with hA hB
  · unfold pymax
    split_ifs with hc
    · exact ⟨le_refl _, hmm⟩
    · exact ⟨(lt_of_not_le hc).le, hhalf⟩
  · unfold pymin
    split_ifs with hc
    · exact ⟨hmm, le_refl _⟩
    · exact ⟨hmul, (lt_of_not_le hc).le⟩
  · exact ⟨h1, h2⟩

/-- C3 (amended): for an `AdaptiveRPS` whose bounds are nonnegative and whose
`rps` starts within `[min_rps, max_rps]`, every sequence of `feedback` calls
keeps `rps` within `[min_rps, max_rps]`. -/
theorem feedbackRun_bounds (s : AdaptiveRPS) (h0 : 0 ≤ s.min_rps)
    (h1 : s.min_rps ≤ s.rps) (h2 : s.rps ≤ s.max_rps) (codes : List Int) :
    s.min_rps ≤ (feedbackRun s codes).rps ∧
      (feedbackRun s codes).rps ≤ s.max_rps := by
  induction codes generalizing s with
  | nil => exact ⟨h1, h2⟩
  | cons c cs ih =>
    have hb := feedback_bounds s c h0 h1 h2
    have e1 := feedback_min_rps s c
    have e2 := feedback_max_rps s c
    have hrun := ih (feedback s c) (e1 ▸ h0) (e1 ▸ hb.1) (e2 ▸ hb.2)
    rw [e1, e2] at hrun
    simpa [feedbackRun] using hrun

/-- C3 counterexample: an instance whose `rps` starts within
`[min_rps, max_rps]` but leaves the interval after three `feedback(429)`
calls. -/
theorem feedbackRun_bounds_counterexample :
    rpsNegDemo.min_rps ≤ rpsNegDemo.rps ∧ rpsNegDemo.rps ≤ rpsNegDemo.max_rps ∧
      ¬((feedbackRun rpsNegDemo [429, 429, 429]).rps ≤ rpsNegDemo.max_rps) := by
  norm_num [rpsNegDemo, feedbackRun, feedback, pushHistory, errorCount,
    isErrorStatus, pymax, pymin, errorWindowMax, List.countP_cons,
    List.countP_nil]

/-- C3 witness: the amended bound theorem instantiated at the spec's default
instance and a concrete feedback sequence. -/
theorem feedbackRun_bounds_witness :
    rpsDemoInit.min_rps ≤ (feedbackRun rpsDemoInit [429, 200, 429, 503]).rps ∧
      (feedbackRun rpsDemoInit [429, 200, 429, 503]).rps ≤ rpsDemoInit.max_rps :=
  feedbackRun_bounds rpsDemoInit (by norm_num [rpsDemoInit])
    (by norm_num [rpsDemoInit]) (by norm_num [rpsDemoInit]) [429, 200, 429, 503]

/-- C5 counterexample: starting from `rps=0.5, min=0.1, max=1.0`, six
consecutive 429s leave `rps` at `0.1` (halving happens on every call once
three errors are in the window: 0.5 → 0.25 → 0.125 → 0.1-clamped), not at the
claimed `0.125`. -/
theorem rps_halving_counterexample :
    (feedbackRun rpsDemoInit [429, 429, 429, 429, 429, 429]).rps = 1/10 ∧
      (feedbackRun rpsDemoInit [429, 429, 429, 429, 429, 429]).rps ≠ 1/8 := by
  norm_num [feedbackRun, feedback, pushHistory, errorCount, isErrorStatus, pymax,
    pymin, rpsDemoInit, errorWindowMax, List.countP_cons, List.countP_nil]

/-- C5 (amended): three consecutive 429s take `rps` from 0.5 to 0.25; three
further 429s take it to the `min_rps` floor 0.1 (not 0.125), because the code
halves on every call while the window holds at least three errors. -/
theorem rps_halving_run :
    (feedbackRun rpsDemoInit [429, 429, 429]).rps = 1/4 ∧
      (feedbackRun rpsDemoInit [429, 429, 429, 429, 429, 429]).rps = 1/10 := by
  norm_num [feedbackRun, feedback, pushHistory, errorCount, isErrorStatus, pymax,
    pymin, rpsDemoInit, errorWindowMax, List.countP_cons, List.countP_nil]

/-- No `true` flags in an all-`false` window. -/
theorem errorCount_replicate_false (n : Nat) :
    errorCount (List.replicate n false) = 0 := by
  unfold errorCount
  exact List.countP_eq_zero.mpr (fun b hb => by
    simp [List.eq_of_mem_replicate hb])

/-- A non-error `feedback` on an all-`false` window shorter than the capacity
only extends the window. -/
theorem feedback_clean_step (s : AdaptiveRPS) (c : Int) (k : Nat)
    (hh : s.error_history = List.replicate k false)
    (hc : isErrorStatus c = false) (hk : k + 1 < errorWindowMax) :
    feedback s c = { s with error_history := List.replicate (k + 1) false } := by
  have hpush : pushHistory s.error_history (isErrorStatus c) =
      List.replicate (k + 1) false := by
    rw [hh, hc]
    unfold pushHistory
    rw [← List.replicate_succ']
    simp only [List.length_replicate]
    rw [if_neg (by omega)]
  simp only [feedback, hpush, errorCount_replicate_false, List.length_replicate]
  rw [if_neg (by omega), if_neg (by omega)]

/-- Feeding only non-error codes into an all-`false` window that stays below
capacity leaves everything but the window unchanged. -/
theorem feedbackRun_clean (codes : List Int) : ∀ (s : AdaptiveRPS) (k : Nat),
    s.error_history = List.replicate k false →
    (∀ c ∈ codes, isErrorStatus c = false) →
    k + codes.length < errorWindowMax →
    feedbackRun s codes =
      { s with error_history := List.replicate (k + codes.length) false } := by
  induction codes with
  | nil =>
    intro s k hh _ _
    simp only [feedbackRun, List.foldl_nil, List.length_nil, Nat.add_zero, ← hh]
  | cons c cs ih =>
    intro s k hh hc hlen
    simp only [List.length_cons] at hlen
    have hcF : isErrorStatus c = false := hc c (List.mem_cons_self c cs)
    have hstep := feedback_clean_step s c k hh hcF (by omega)
    have htail := ih (feedback s c) (k + 1) (by rw [hstep])
      (fun d hd => hc d (List.mem_cons_of_mem c hd))
      (by omega)
    calc feedbackRun s (c :: cs)
        = feedbackRun (feedback s c) cs := by
          simp only [feedbackRun, List.foldl_cons]
      _ = { feedback s c with
              error_history := List.replicate (k + 1 + cs.length) false } := htail
      _ = { s with error_history := List.replicate (k + (c :: cs).length) false } := by
          rw [hstep, List.length_cons,
            show k + 1 + cs.length = k + (cs.length + 1) from by omega]

/-- C9: from a fresh (empty-window) limiter, 19 non-error responses leave
`rps` unchanged, and a 20th non-error response (completing a full error-free
window of capacity 20) sets `rps` to `min(max_rps, rps * 1.2)`. -/
theorem adaptive_speedup_full_window (s : AdaptiveRPS) (codes : List Int)
    (hh : s.error_history = []) (hlen : codes.length = 19)
    (hc : ∀ c ∈ codes, isErrorStatus c = false)
    (c20 : Int) (hc20 : isErrorStatus c20 = false) :
    (feedbackRun s codes).rps = s.rps ∧
      (feedback (feedbackRun s codes) c20).rps =
        pymin s.max_rps (s.rps * (6 / 5)) := by
  have h19 : feedbackRun s codes =
      { s with error_history := List.replicate 19 false } := by
    have := feedbackRun_clean codes s 0 (by simpa using hh) hc
      (by simp [hlen, errorWindowMax])
    simpa [hlen] using this
  refine ⟨by rw [h19], ?_⟩
  rw [h19]
  have hpush : pushHistory (List.replicate 19 false) (isErrorStatus c20) =
      List.replicate 20 false := by
    rw [hc20]
    unfold pushHistory
    rw [← List.replicate_succ']
    simp [errorWindowMax]
  simp only [feedback, hpush, errorCount_replicate_false, List.length_replicate]
  rw [if_neg (by omega), if_pos (by simp [errorWindowMax])]

/-- C9 witness: the theorem instantiated at the default instance with 19
followed by one HTTP 200 response. -/
theorem adaptive_speedup_full_window_witness :
    (feedbackRun rpsDemoInit (List.replicate 19 200)).rps = rpsDemoInit.rps ∧
      (feedback (feedbackRun rpsDemoInit (List.replicate 19 200)) 200).rps =
        pymin rpsDemoInit.max_rps (rpsDemoInit.rps * (6 / 5)) :=
  adaptive_speedup_full_window rpsDemoInit (List.replicate 19 200) rfl (by simp)
    (fun c hc => by rw [List.eq_of_mem_replicate hc]; rfl) 200 rfl

/-! ## Theorems: RobotsParser -/

example :
    (parse_robots_content "User-agent: *\nAllow: /a/\nDisallow: /b/\n").allow =
        ["/a/"] ∧
      (parse_robots_content "User-agent: *\nAllow: /a/\nDisallow: /b/\n").disallow =
        ["/b/"] := by
  constructor <;> decide

example : path_matches "/admin/x" "/admin/" = true := by decide
example : path_matches "/a/b/c" "/a/*/c" = true := by decide
example : path_matches "/a/b" "/x*" = false := by decide

/-- C1: `is_allowed` implements exactly the documented decision procedure:
the result is `true` iff the path matches no disallow pattern and, whenever
the allow list is non-empty, matches at least one allow pattern (with an
empty allow list everything not disallowed is allowed); and `None` rules
always allow. -/
theorem is_allowed_decision (path : String) (r : RobotsRules) :
    (is_allowed path (some r) = true ↔
      ((∀ d ∈ r.disallow, path_matches path d = false) ∧
        (r.allow ≠ [] → ∃ a ∈ r.allow, path_matches path a = true))) ∧
    is_allowed path none = true := by
  obtain ⟨al, dl, cd, ua, er⟩ := r
  refine ⟨?_, rfl⟩
  simp only [is_allowed]
  by_cases hD : dl.any (fun d => path_matches path d) = true
  · rw [if_pos hD]
    simp only [List.any_eq_true] at hD
    obtain ⟨d, hd, hm⟩ := hD
    constructor
    · intro h; cases h
    · intro hc
      rw [hc.1 d hd] at hm
      cases hm
  · rw [if_neg hD]
    have hall : ∀ d ∈ dl, path_matches path d = false := by
      intro d hd
      cases hpm : path_matches path d
      · rfl
      · exact absurd (List.any_eq_true.mpr ⟨d, hd, hpm⟩) hD
    cases al with
    | nil =>
      simp
      exact hall
    | cons a as =>
      simp only [List.isEmpty_cons, Bool.not_false, if_true, List.any_eq_true]
      constructor
      · intro hex
        exact ⟨hall, fun _ => hex⟩
      · rintro ⟨-, himp⟩
        exact himp (by simp)

/-- C2: whenever the `try` block of `fetch_robots` raises, the call returns
the permissive fallback ruleset: allow exactly `["/"]`, no disallow, no
crawl delay, and the error text attached. -/
theorem fetch_robots_fail_open (e : String) :
    (fetch_robots (Except.error e)).allow = ["/"] ∧
      (fetch_robots (Except.error e)).disallow = [] ∧
      (fetch_robots (Except.error e)).crawl_delay = none ∧
      (fetch_robots (Except.error e)).error = some e :=
  ⟨rfl, rfl, rfl, rfl⟩

/-- C10: a bare `Disallow:` line is stored as the empty-string pattern, the
empty pattern matches no path, and hence an empty disallow pattern never
changes any `is_allowed` decision. -/
theorem empty_pattern_matches_nothing :
    (parse_robots_content "User-agent: *\nDisallow:").disallow = [""] ∧
      (∀ path : String, path_matches path "" = false) ∧
      (∀ (path : String) (r : RobotsRules),
        is_allowed path (some { r with disallow := "" :: r.disallow }) =
          is_allowed path (some r)) := by
  refine ⟨by decide, fun path => rfl, ?_⟩
  intro path r
  simp only [is_allowed, List.any_cons]
  have h0 : path_matches path "" = false := rfl
  rw [h0]
  simp

/-! ## Theorems: IntegrityChecker -/

/-- C4: the report's `status` is `"PASS"` iff no check recorded a violation,
otherwise `"FAIL"`; `total_violations` is the length of the violations list;
and the list is exactly the checks' output concatenated in invocation
order. -/
theorem run_integrity_check_report (now : String) (s : SilverLayer) :
    ((run_integrity_check now s).status = "PASS" ↔
      (run_integrity_check now s).violations = []) ∧
    ((run_integrity_check now s).status = "FAIL" ↔
      (run_integrity_check now s).violations ≠ []) ∧
    (run_integrity_check now s).total_violations =
      (run_integrity_check now s).violations.length ∧
    (run_integrity_check now s).violations =
      check_file_existence s ++ check_provenance_gates s ++
        check_refillable_evidence s ++ check_robots_provenance s ++
        check_synthetic_indicators s ++ check_price_sanity s.products ++
        check_fixture_contamination s ++ (generate_audit_sample s).2 := by
  have hPF : ("PASS" : String) ≠ "FAIL" := by decide
  unfold run_integrity_check
  dsimp only
  by_cases h : (allViolations s).length = 0
  · have he : allViolations s = [] := List.eq_nil_of_length_eq_zero h
    rw [if_pos h]
    exact ⟨by simp [he], by simp [he, hPF.symm], rfl, rfl⟩
  · have hne : allViolations s ≠ [] := by
      intro hc
      rw [hc] at h
      exact h rfl
    rw [if_neg h]
    exact ⟨by simp [hne, hPF.symm], by simp [hne], rfl, rfl⟩

/-- C8: two runs of the integrity checker over the same silver layer (each
from a fresh checker) produce identical violation lists, statuses, totals
and sample sizes; only the timestamp differs. -/
theorem run_integrity_check_idempotent (s : SilverLayer) (t1 t2 : String) :
    (run_integrity_check t1 s).violations = (run_integrity_check t2 s).violations ∧
      (run_integrity_check t1 s).status = (run_integrity_check t2 s).status ∧
      (run_integrity_check t1 s).total_violations =
        (run_integrity_check t2 s).total_violations ∧
      (run_integrity_check t1 s).audit_sample_size =
        (run_integrity_check t2 s).audit_sample_size :=
  ⟨rfl, rfl, rfl, rfl⟩

/-- `filter` over `replicate`. -/
theorem filter_replicate_of_pos {α : Type} (p : α → Bool) (a : α) (n : Nat)
    (h : p a = true) : (List.replicate n a).filter p = List.replicate n a := by
  induction n with
  | zero => rfl
  | succ k ih => simp [List.replicate_succ, List.filter_cons, h, ih]

/-- A non-empty list has `isEmpty = false`. -/
theorem isEmpty_false_of_ne_nil {α : Type} {l : List α} (h : l ≠ []) :
    l.isEmpty = false := by
  cases l with
  | nil => exact absurd rfl h
  | cons a t => rfl

/-- C7 counterexample: `skewedReviews` contains an out-of-range rating and
its in-bounds fraction is not 1, yet the rating-bounds check records no
violation, because the code compares the fraction only after rounding it to
three decimals. -/
theorem rating_bounds_counterexample :
    ratingBoundsViolations (some skewedReviews) = [] ∧
      ratingFraction skewedReviews ≠ 1 ∧
      badReview ∈ skewedReviews ∧ ratingInBounds badReview.rating = false := by
  have hgood : ratingInBounds goodReview.rating = true := by decide
  have hbad : ratingInBounds badReview.rating = false := by decide
  have hfilter : skewedReviews.filter (fun r => ratingInBounds r.rating) =
      List.replicate 9999 goodReview := by
    unfold skewedReviews
    rw [List.filter_append,
      filter_replicate_of_pos (fun r => ratingInBounds r.rating) goodReview 9999 hgood]
    have hb2 : List.filter (fun r => ratingInBounds r.rating) [badReview] = [] := by
      decide
    rw [hb2, List.append_nil]
  have hlen : skewedReviews.length = 10000 := by
    unfold skewedReviews
    rw [List.length_append, List.length_replicate]
    rfl
  have hfrac : ratingFraction skewedReviews = 9999 / 10000 := by
    unfold ratingFraction
    rw [hfilter, List.length_replicate, hlen]
    norm_num
  have hround : round3 ((9999 : ℚ) / 10000) = 1 := by
    unfold round3
    have h1 : ((9999 : ℚ) / 10000) * 1000 = 9999 / 10 := by norm_num
    have h2 : round ((9999 : ℚ) / 10) = 1000 := by
      rw [round_eq]
      have h3 : ((9999 : ℚ) / 10 + 1 / 2) = 10004 / 10 := by norm_num
      rw [h3, Int.floor_eq_iff]
      constructor <;> norm_num
    rw [h1, h2]
    norm_num
  have hne : skewedReviews ≠ [] := by
    intro hc
    rw [hc] at hlen
    exact absurd hlen (by decide)
  refine ⟨?_, by rw [hfrac]; norm_num, ?_, hbad⟩
  · unfold ratingBoundsViolations
    dsimp only
    rw [if_neg (by simp [isEmpty_false_of_ne_nil hne]), hfrac, if_pos hround]
  · unfold skewedReviews
    exact List.mem_append_right _ (List.mem_singleton_self _)

/-- C7 (amended): for a non-empty reviews table, the rating-bounds check
records a violation iff the in-bounds fraction, rounded to three decimal
places, differs from 1.0 (so a single out-of-range rating among 2000 or
more reviews can go unflagged). -/
theorem rating_bounds_rounded (rs : List Review) (hne : rs ≠ []) :
    (ratingBoundsViolations (some rs) ≠ [] ↔
      round3 (ratingFraction rs) ≠ 1) := by
  unfold ratingBoundsViolations
  dsimp only
  rw [if_neg (by simp [isEmpty_false_of_ne_nil hne])]
  split_ifs with h
  · simp [h]
  · simp [h]

/-- C7 witness: the amended theorem applied to a one-review table. -/
theorem rating_bounds_rounded_witness :
    (ratingBoundsViolations (some [goodReview]) ≠ [] ↔
      round3 (ratingFraction [goodReview]) ≠ 1) :=
  rating_bounds_rounded [goodReview] (List.cons_ne_nil _ _)

/-- C6 counterexample: brand `A` has 10 products and only 2 distinct price
levels, yet `check_price_sanity` records no violation — the code requires at
least 20 products (not 10) for the few-price-levels flag. -/
theorem price_sanity_counterexample :
    check_price_sanity (some twoLevelProducts) = [] ∧
      10 ≤ (brandGroup twoLevelProducts "A").length ∧
      (brandStat twoLevelProducts "A").price_levels ≤ 2 := by
  refine ⟨by decide, by decide, by decide⟩

/-- C6 (amended): for every brand with at least 10 products, the
few-price-levels violation is recorded when the brand has at most 2 distinct
price levels *and at least 20 products*, and the identical-min/max-prices
violation is recorded when the brand's min price equals its max price. -/
theorem price_sanity_flags (ps : List Product) (b : String)
    (h10 : 10 ≤ (brandGroup ps b).length) :
    ((brandStat ps b).price_levels ≤ 2 → 20 ≤ (brandGroup ps b).length →
      fewLevelsMsg (brandStat ps b) ∈ check_price_sanity (some ps)) ∧
    (minMaxEqual (brandStat ps b) = true →
      minMaxMsg (brandStat ps b) ∈ check_price_sanity (some ps)) := by
  have hn : (brandStat ps b).n = (brandGroup ps b).length := rfl
  have hbmem : b ∈ (ps.map (fun p => p.brand)).dedup := by
    rw [List.mem_dedup]
    have hgne : brandGroup ps b ≠ [] := by
      intro h0
      rw [h0] at h10
      simp at h10
    obtain ⟨p, hp⟩ := List.exists_mem_of_ne_nil _ hgne
    have hp' := List.mem_filter.mp hp
    rw [List.mem_map]
    exact ⟨p, hp'.1, by simpa using hp'.2⟩
  have hstat : brandStat ps b ∈ priceStats ps := by
    unfold priceStats
    rw [List.mem_filter]
    refine ⟨List.mem_map_of_mem _ hbmem, ?_⟩
    simp only [decide_eq_true_eq, hn]
    exact h10
  have hsorted : brandStat ps b ∈ List.insertionSort statLE (priceStats ps) :=
    ((List.perm_insertionSort statLE (priceStats ps)).mem_iff).mpr hstat
  have hflat : ∀ msg ∈ brandRowViolations (brandStat ps b),
      msg ∈ check_price_sanity (some ps) := by
    intro msg hmsg
    unfold check_price_sanity
    rw [List.mem_flatten]
    exact ⟨brandRowViolations (brandStat ps b), List.mem_map_of_mem _ hsorted, hmsg⟩
  constructor
  · intro hlev h20
    apply hflat
    unfold brandRowViolations
    rw [if_pos ⟨hlev, by rw [hn]; exact h20⟩]
    exact List.mem_append_left _ (List.mem_singleton_self _)
  · intro hmm
    apply hflat
    unfold brandRowViolations
    apply List.mem_append_right
    rw [if_pos ⟨hmm, by rw [hn]; exact h10⟩]
    exact List.mem_singleton_self _

/-- C6 witness: the amended theorem applied to `uniformPriceProducts`. -/
theorem price_sanity_flags_witness :
    fewLevelsMsg (brandStat uniformPriceProducts "B") ∈
        check_price_sanity (some uniformPriceProducts) ∧
      minMaxMsg (brandStat uniformPriceProducts "B") ∈
        check_price_sanity (some uniformPriceProducts) :=
  ⟨(price_sanity_flags uniformPriceProducts "B" (by decide)).1 (by decide) (by decide),
   (price_sanity_flags uniformPriceProducts "B" (by decide)).2 (by decide)⟩

end ThesisKedge
